import Mathlib

/-!
Verification of the B-Segment Allocation reconciliation engine (`api/index.py`)
against its natural-language specification.

The development shallowly embeds the record-level logic of the three pipeline
stages — `consolidate_data_process` (PISA filter), the Step-2 status update
(`transform_status_if_barcode_exists`) and the Step-3 final merge
(`process_central_file_step3_final_merge_and_needs_review`, including the
Workon/RGBA/SMD appends, the PM7 company-code backfill and the region-mapping
fill).  DataFrames become lists of records; a pandas cell that may be missing
is modelled by `RVal`, with `RVal.na` for a float NaN, `RVal.pynone` for a
Python None and `RVal.s v` for a string value; `astype(str)` renders NaN as
the literal string `"nan"` and None as `"None"` exactly as pandas does (the
`pd.NA` sentinel arises only inside the region-fill chain and is rendered
there as `"<NA>"`), and the pandas exact-match replacement of the text nan by
the empty string is the scrub `replaceNan`.
Records carry the fields the verified claims touch (Barcode, Channel,
Company code, Region, Status); the date, aging and projection columns are not
read by any reconciliation decision verified here and are omitted.
The region-mapping dictionary built at lines 538-543 of the source is
abstracted to its lookup function `String → Option String` (4-character
upper-cased key to region label).
-/

namespace BSeg

/-- Python `str.strip()`: trim leading and trailing whitespace (modelled on the
ASCII whitespace characters, which covers the statuses and keys at issue). -/
def pyStrip (s : String) : String :=
  String.mk (((s.data.dropWhile Char.isWhitespace).reverse.dropWhile Char.isWhitespace).reverse)

/-- Python `str.lower()` (ASCII case fold). -/
def pyLower (s : String) : String := String.mk (s.data.map Char.toLower)

/-- Python `str.upper()` (ASCII case fold). -/
def pyUpper (s : String) : String := String.mk (s.data.map Char.toUpper)

/-- Python slicing `s[:n]`: the first `n` characters (all of `s` if shorter). -/
def pyTake (s : String) (n : Nat) : String := String.mk (s.data.take n)

/-- Python `len(s)`: the number of characters. -/
def pyLen (s : String) : Nat := s.data.length

/-- A pandas cell that is either missing or holds a string.  The two missing
flavours that occur in the frames of this program are kept apart because
`astype(str)` renders them differently: `na` is a float NaN (rendered `nan`),
`pynone` is a Python None (rendered `None`). -/
inductive RVal where
  | na : RVal
  | pynone : RVal
  | s : String → RVal
deriving DecidableEq, Repr

/-- Pandas `Series.astype(str)` on a cell: NaN renders as the string `"nan"`
and None as the string `"None"`. -/
def astypeStr : RVal → String
  | RVal.na => "nan"
  | RVal.pynone => "None"
  | RVal.s v => v

/-- The pandas Series replacement step at several places of the source:
exact-match replacement of the literal string `"nan"` by the empty string. -/
def replaceNan (x : String) : String := if x = "nan" then "" else x

/-- One row of the central registry / merged frame, restricted to the fields
read or written by the reconciliation and enrichment logic. -/
structure Rec where
  barcode : String
  channel : String
  companyCode : RVal
  region : RVal
  status : String
deriving DecidableEq, Repr

/-- Source `transform_status_if_barcode_exists` (index.py lines 240-257):
if the barcode of the central record is in the consolidated PISA/ESM/PM7 barcode
set, apply the transition table to the stripped, lower-cased status; otherwise
keep the original status. -/
def transform_status_if_barcode_exists (consolidatedBarcodes : List String)
    (centralBarcode originalCentralStatus : String) : String :=
  if centralBarcode ∈ consolidatedBarcodes then
    let statusStr := pyLower (pyStrip originalCentralStatus)
    if statusStr = "new" then "Untouched"
    else if statusStr = "completed" then "Reopen"
    else if statusStr = "n/a" then "New"
    else if statusStr = "" ∨ statusStr = "na" ∨ statusStr = "none" then originalCentralStatus
    else originalCentralStatus
  else originalCentralStatus

/-- Source Step 2 (index.py line 259): the transformation is applied to the
Status of every central record. -/
def step2_update_existing (consolidatedBarcodes : List String)
    (central : List Rec) : List Rec :=
  central.map fun r =>
    { r with status := transform_status_if_barcode_exists consolidatedBarcodes r.barcode r.status }

/-- Source Step 3, part 1 (index.py lines 334-343): rows of the consolidated
PISA/ESM/PM7 frame whose barcode lies in `consolidated - central` are appended
with Status overwritten to the literal `New`.  Every such row is kept (the `isin` filter
selects rows, not unique barcodes). -/
def new_records (consolidated : List Rec)
    (consolidatedBarcodes centralBarcodes : List String) : List Rec :=
  (consolidated.filter fun r =>
      decide (r.barcode ∈ consolidatedBarcodes ∧ r.barcode ∉ centralBarcodes)).map
    fun r => { r with status := "New" }

/-- Source Step 3, part 2 (index.py lines 354-363), per record: a record whose
barcode is in `central - consolidated` and whose stripped lower-cased status is
not `completed` gets the Status `Needs Review`. -/
def needs_review_rec (centralBarcodes consolidatedBarcodes : List String)
    (r : Rec) : Rec :=
  if r.barcode ∈ centralBarcodes ∧ r.barcode ∉ consolidatedBarcodes ∧
      ¬ pyLower (pyStrip r.status) = "completed"
  then { r with status := "Needs Review" } else r

/-- The Needs-Review pass applied to the whole frame. -/
def needs_review_pass (centralBarcodes consolidatedBarcodes : List String)
    (rows : List Rec) : List Rec :=
  rows.map (needs_review_rec centralBarcodes consolidatedBarcodes)

/-- One cleaned Workon row (the fields the merge reads; each value is the
`str(...)`-coerced cell, so a missing cell arrives as the string `"nan"`). -/
structure WorkonRow where
  key : String
  status : String
  country : String
  companyCode : String
deriving DecidableEq, Repr

/-- Source Step 3, part 3 (index.py lines 375-395): direct mapping of a Workon
row into the central shape: Channel is the constant `Workon`, Region is the
str-coerced country column, Status the str-coerced status column). -/
def workon_to_rec (w : WorkonRow) : Rec :=
  { barcode := w.key, channel := "Workon", companyCode := RVal.s w.companyCode,
    region := RVal.s w.country, status := w.status }

/-- One cleaned RGBA row (the fields the merge reads plus the
`current_assignee` field named by the substring filter of the specification). -/
structure RgbaRow where
  key : String
  companyCode : String
  currentAssignee : String
deriving DecidableEq, Repr

/-- Source Step 3, part 4 (index.py lines 420-423): the `current_assignee`
filter has been explicitly removed — every cleaned RGBA row is kept
(`df_rgba_filtered = df_rgba_cleaned.copy()`). -/
def rgba_filter (rows : List RgbaRow) : List RgbaRow := rows

/-- Source Step 3, part 4 (index.py lines 437-456): direct mapping of an RGBA
row: Channel is the constant `Workon`, Region is the Python None literal,
Status is None, rendered as the empty string by the final fillna step. -/
def rgba_to_rec (g : RgbaRow) : Rec :=
  { barcode := g.key, channel := "Workon", companyCode := RVal.s g.companyCode,
    region := RVal.pynone, status := "" }

/-- One cleaned SMD row (the fields the merge reads). -/
structure SmdRow where
  ekorg : String
  materialField : String
deriving DecidableEq, Repr

/-- Source Step 3, part 5 (index.py lines 472-492): direct mapping of an SMD
row; Barcode is `None` (rendered as the empty string by the final
fillna step), Region is the str-coerced material-field column. -/
def smd_to_rec (x : SmdRow) : Rec :=
  { barcode := "", channel := "SMD", companyCode := RVal.s x.ekorg,
    region := RVal.s x.materialField, status := "" }

/-- Source Step 3, part 6 (index.py lines 509-515): the value written into a
blank PM7 Company code — the first 4 characters of the stripped Barcode when
it has at least 4 characters, else the empty string. -/
def pm7cc (barcode : String) : String :=
  let b := pyStrip barcode
  if 4 ≤ pyLen b then pyTake b 4 else ""

/-- Source Step 3, part 6, per record: a record whose Channel equals `PM7` and whose
Company code is blank after astype to str, the nan scrub and a strip
receives `pm7cc` of its Barcode. -/
def pm7_backfill_rec (r : Rec) : Rec :=
  if r.channel = "PM7" ∧ pyStrip (replaceNan (astypeStr r.companyCode)) = "" then
    { r with companyCode := RVal.s (pm7cc r.barcode) }
  else r

/-- The PM7 company-code backfill applied to the whole frame. -/
def pm7_backfill (rows : List Rec) : List Rec := rows.map pm7_backfill_rec

/-- Source Step 3, part 7 (index.py line 548): the lookup key derived from a
Company code cell — `astype(str).str.strip().str.upper().str[:4]`. -/
def ccLookupKey (cc : RVal) : String := pyTake (pyUpper (pyStrip (astypeStr cc))) 4

/-- Source Step 3, part 7 (index.py lines 550-559), value level: the Region
cell after the source chain: the empty string is turned into the pd.NA
sentinel, missing cells are filled from the mapping, the column is rendered by
astype to str and then passed through the exact-match nan scrub.  When no
mapping matches, the fillna step leaves the cell holding whatever missing
value it already held, and astype renders each flavour differently: a float
NaN becomes the string nan and is scrubbed to the empty string; a Python None
becomes the string None and survives; the pd.NA produced from an empty string
becomes the string written between angle brackets as NA and survives.  A
mapped value and a non-blank cell pass through the nan scrub. -/
def region_fill_val (mapped : Option String) (r : RVal) : String :=
  match r with
  | RVal.na =>
      match mapped with
      | some v => replaceNan v
      | none => ""
  | RVal.pynone =>
      match mapped with
      | some v => replaceNan v
      | none => "None"
  | RVal.s v =>
      if v = "" then
        match mapped with
        | some w => replaceNan w
        | none => "<NA>"
      else replaceNan v

/-- Source Step 3, part 7, per record: only the Region field changes; the
mapped value is looked up under the Company-code key of the record. -/
def region_fill_rec (regionMap : String → Option String) (r : Rec) : Rec :=
  { r with region := RVal.s (region_fill_val (regionMap (ccLookupKey r.companyCode)) r.region) }

/-- The region-mapping fill applied to the whole frame. -/
def region_fill (regionMap : String → Option String) (rows : List Rec) : List Rec :=
  rows.map (region_fill_rec regionMap)

/-- Source `process_central_file_step3_final_merge_and_needs_review`
(index.py lines 305-568), in the order of the source: barcode sets are taken before
any append; new PISA/ESM/PM7 rows are appended with Status `New`; the
Needs-Review pass runs on the frame holding the central rows plus those new
rows; Workon, RGBA and SMD rows are appended afterwards; finally the PM7
company-code backfill and the region fill run over the whole frame.
`central` is the registry frame as produced by Step 2. -/
def step3_merge (consolidated central : List Rec)
    (workon : List WorkonRow) (rgba : List RgbaRow) (smd : List SmdRow)
    (regionMap : String → Option String) : List Rec :=
  let centralBarcodes := central.map (·.barcode)
  let consolidatedBarcodes := consolidated.map (·.barcode)
  let afterNew := central ++ new_records consolidated consolidatedBarcodes centralBarcodes
  let afterNR := needs_review_pass centralBarcodes consolidatedBarcodes afterNew
  let afterWorkon := afterNR ++ workon.map workon_to_rec
  let afterRgba := afterWorkon ++ (rgba_filter rgba).map rgba_to_rec
  let afterSmd := afterRgba ++ smd.map smd_to_rec
  region_fill regionMap (pm7_backfill afterSmd)

/-- Steps 2 and 3 composed, as `process_b_segment_allocation_core` runs them
(index.py lines 747-760): the Step-2 status update on the central registry,
then the Step-3 merge, both keyed by the consolidated PISA/ESM/PM7 barcodes. -/
def reconcile (consolidated central : List Rec)
    (workon : List WorkonRow) (rgba : List RgbaRow) (smd : List SmdRow)
    (regionMap : String → Option String) : List Rec :=
  step3_merge consolidated
    (step2_update_existing (consolidated.map (·.barcode)) central)
    workon rgba smd regionMap

/-- One cleaned PISA row (the fields the PISA filter reads). -/
structure PisaRow where
  assignedUser : String
  barcode : String
deriving DecidableEq, Repr

/-- Source `consolidate_data_process` (index.py line 93): the fixed PISA
allow-list of assigned users. -/
def allowed_pisa_users : List String :=
  ["Goswami Sonali", "Patil Jayapal Gowd", "Ranganath Chilamakuri",
   "Sridhar Divya", "Sunitha S", "Varunkumar N"]

/-- Source `consolidate_data_process` (index.py lines 94-101): when the
cleaned frame has an `assigned_user` column, keep exactly the rows whose
assigned user is in the allow-list; when the column is absent, keep every row
and record a warning (the Boolean component). -/
def pisa_filter (hasAssignedUserCol : Bool) (rows : List PisaRow) :
    List PisaRow × Bool :=
  if hasAssignedUserCol then
    (rows.filter fun r => decide (r.assignedUser ∈ allowed_pisa_users), false)
  else
    (rows, true)

/-- Substring containment: `marker` occurs contiguously inside `s`. -/
def containsSub (s marker : String) : Prop :=
  ∃ i : Nat, (s.data.drop i).take marker.data.length = marker.data

/-- Concrete inputs shared by several checks below. -/
def mnone : String → Option String := fun _ => none

/-- A consolidated PISA-shaped row with the given barcode and status (the
consolidation writes Region as the Python None literal). -/
def crow (b st : String) : Rec :=
  { barcode := b, channel := "PISA", companyCode := RVal.s "",
    region := RVal.pynone, status := st }

theorem needs_review_rec_barcode (cb cs : List String) (r : Rec) :
    (needs_review_rec cb cs r).barcode = r.barcode := by
  unfold needs_review_rec; split <;> rfl

theorem needs_review_rec_region (cb cs : List String) (r : Rec) :
    (needs_review_rec cb cs r).region = r.region := by
  unfold needs_review_rec; split <;> rfl

theorem pm7_backfill_rec_barcode (r : Rec) : (pm7_backfill_rec r).barcode = r.barcode := by
  unfold pm7_backfill_rec; split <;> rfl

theorem pm7_backfill_rec_status (r : Rec) : (pm7_backfill_rec r).status = r.status := by
  unfold pm7_backfill_rec; split <;> rfl

theorem region_fill_rec_barcode (m : String → Option String) (r : Rec) :
    (region_fill_rec m r).barcode = r.barcode := rfl

theorem region_fill_rec_status (m : String → Option String) (r : Rec) :
    (region_fill_rec m r).status = r.status := rfl

theorem map_congr_mem {α β : Type} {f g : α → β} :
    ∀ {l : List α}, (∀ a ∈ l, f a = g a) → l.map f = l.map g := by
  intro l
  induction l with
  | nil => intro _; rfl
  | cons a t ih =>
    intro h
    simp only [List.map_cons]
    rw [h a (by simp), ih fun x hx => h x (by simp [hx])]

theorem take_map_append {α β : Type} (f : α → β) (rest : List β) :
    ∀ c : List α, (c.map f ++ rest).take c.length = c.map f := by
  intro c
  induction c with
  | nil => rfl
  | cons a t ih => simp [ih]

/-- Number of records of a frame carrying a given barcode. -/
def cnt (k : String) (rows : List Rec) : Nat :=
  (rows.filter fun r => decide (r.barcode = k)).length

theorem cnt_append (k : String) (a b : List Rec) : cnt k (a ++ b) = cnt k a + cnt k b := by
  simp [cnt, List.filter_append]

theorem cnt_cons (k : String) (a : Rec) (t : List Rec) :
    cnt k (a :: t) = (if a.barcode = k then 1 else 0) + cnt k t := by
  unfold cnt
  by_cases h : a.barcode = k
  · simp [List.filter_cons, h, Nat.add_comm]
  · simp [List.filter_cons, h]

theorem cnt_map_of_barcode (k : String) (f : Rec → Rec) (hf : ∀ r, (f r).barcode = r.barcode) :
    ∀ l : List Rec, cnt k (l.map f) = cnt k l := by
  intro l
  induction l with
  | nil => rfl
  | cons a t ih => rw [List.map_cons, cnt_cons, cnt_cons, hf, ih]

theorem cnt_eq_zero_of_not_mem (k : String) :
    ∀ l : List Rec, k ∉ l.map (·.barcode) → cnt k l = 0 := by
  intro l
  induction l with
  | nil => intro _; rfl
  | cons a t ih =>
    intro h
    simp only [List.map_cons, List.mem_cons] at h
    push_neg at h
    rw [cnt_cons, if_neg fun e => h.1 e.symm, ih h.2]

theorem cnt_filter_of_keep (k : String) (p : Rec → Bool)
    (hp : ∀ r : Rec, r.barcode = k → p r = true) :
    ∀ l : List Rec, cnt k (l.filter p) = cnt k l := by
  intro l
  induction l with
  | nil => rfl
  | cons a t ih =>
    rw [List.filter_cons]
    by_cases hpa : p a = true
    · rw [if_pos hpa, cnt_cons, cnt_cons, ih]
    · have hbk : a.barcode ≠ k := fun e => hpa (hp a e)
      rw [if_neg hpa, cnt_cons, if_neg hbk, ih, Nat.zero_add]

theorem cnt_map_workon (k : String) :
    ∀ w : List WorkonRow,
      cnt k (w.map workon_to_rec) = (w.filter fun x => decide (x.key = k)).length := by
  intro w
  induction w with
  | nil => rfl
  | cons a t ih =>
    rw [List.map_cons, cnt_cons, List.filter_cons]
    by_cases h : a.key = k
    · simp [workon_to_rec, h, ih, Nat.add_comm]
    · simp [workon_to_rec, h, ih]

theorem cnt_map_rgba (k : String) :
    ∀ g : List RgbaRow,
      cnt k (g.map rgba_to_rec) = (g.filter fun x => decide (x.key = k)).length := by
  intro g
  induction g with
  | nil => rfl
  | cons a t ih =>
    rw [List.map_cons, cnt_cons, List.filter_cons]
    by_cases h : a.key = k
    · simp [rgba_to_rec, h, ih, Nat.add_comm]
    · simp [rgba_to_rec, h, ih]

theorem cnt_map_smd (k : String) :
    ∀ s : List SmdRow, cnt k (s.map smd_to_rec) = if k = "" then s.length else 0 := by
  intro s
  induction s with
  | nil => simp [cnt]
  | cons a t ih =>
    rw [List.map_cons, cnt_cons, ih]
    by_cases h : k = ""
    · simp [smd_to_rec, h, Nat.add_comm]
    · have h2 : ¬("" : String) = k := fun e => h e.symm
      simp [smd_to_rec, h, h2]

/-- C1: for every registry record whose barcode lies in the consolidated
PISA/ESM/PM7 barcode set, the status transition is exactly: `new` (after
trimming, case-insensitively) maps to `Untouched`, `completed` to `Reopen`,
`n/a` to `New`, and every other value — including the empty string, `na` and `none` —
is returned unchanged with its original casing and text. -/
theorem c1_status_transition_table (consolidatedBarcodes : List String)
    (b st : String) (hb : b ∈ consolidatedBarcodes) :
    transform_status_if_barcode_exists consolidatedBarcodes b st =
      if pyLower (pyStrip st) = "new" then "Untouched"
      else if pyLower (pyStrip st) = "completed" then "Reopen"
      else if pyLower (pyStrip st) = "n/a" then "New"
      else st := by
  unfold transform_status_if_barcode_exists
  rw [if_pos hb]
  show (if pyLower (pyStrip st) = "new" then "Untouched"
      else if pyLower (pyStrip st) = "completed" then "Reopen"
      else if pyLower (pyStrip st) = "n/a" then "New"
      else if pyLower (pyStrip st) = "" ∨ pyLower (pyStrip st) = "na" ∨
          pyLower (pyStrip st) = "none" then st
      else st) = _
  split_ifs <;> rfl

/-- Witness for C1 at a concrete input. -/
theorem c1_witness :
    ("B1" ∈ ["B1", "B2"]) ∧
      transform_status_if_barcode_exists ["B1", "B2"] "B1" " Completed " =
        (if pyLower (pyStrip " Completed ") = "new" then "Untouched"
         else if pyLower (pyStrip " Completed ") = "completed" then "Reopen"
         else if pyLower (pyStrip " Completed ") = "n/a" then "New"
         else " Completed ") :=
  ⟨by decide, c1_status_transition_table ["B1", "B2"] "B1" " Completed " (by decide)⟩

/-- C10: with the `assigned_user` column present, a PISA row is kept exactly
when its assigned user belongs to the fixed 6-name allow-list; with the column
absent, every row is kept and a warning is recorded. -/
theorem c10_pisa_filter_fail_open (rows : List PisaRow) (r : PisaRow) :
    (r ∈ (pisa_filter true rows).1 ↔ r ∈ rows ∧ r.assignedUser ∈ allowed_pisa_users) ∧
      pisa_filter false rows = (rows, true) ∧
      allowed_pisa_users.length = 6 := by
  refine ⟨?_, rfl, rfl⟩
  simp [pisa_filter, List.mem_filter]

/-- The RGBA substring-filter claim as stated by the specification: some fixed
non-empty marker exists such that a cleaned RGBA row is kept exactly when its
`current_assignee` value contains the marker. -/
def rgbaSubstringFilterClaim : Prop :=
  ∃ marker : String, marker ≠ "" ∧
    ∀ (rows : List RgbaRow) (g : RgbaRow),
      g ∈ rgba_filter rows ↔ g ∈ rows ∧ containsSub g.currentAssignee marker

/-- C5 counterexample: the source keeps every RGBA row (the filter was
explicitly removed at index.py lines 420-423), so a row whose current-assignee
field is empty — which contains no non-empty marker — is still included, and
no non-empty marker can make the filter description of the specification true. -/
theorem c5_counterexample : ¬ rgbaSubstringFilterClaim := by
  rintro ⟨marker, hm, h⟩
  have h0 := (h [{ key := "k", companyCode := "", currentAssignee := "" }]
      { key := "k", companyCode := "", currentAssignee := "" }).mp (by simp [rgba_filter])
  obtain ⟨-, i, hi⟩ := h0
  have hd : marker.data = [] := by simpa using hi.symm
  apply hm
  cases marker with
  | mk d => rw [show d = [] from hd]

/-- C5 amended: the RGBA channel applies no current-assignee filter at all —
every cleaned RGBA row is included in the merge regardless of any field. -/
theorem c5_all_rgba_included_amended (rows : List RgbaRow) : rgba_filter rows = rows := rfl

/-- C4 amended: every record appended by the new-record step has its Status
overwritten to the literal `New`, regardless of the channel-provided status on
the consolidated row it was built from. -/
theorem c4_new_records_status_amended (cons : List Rec) (csB ctB : List String)
    (r : Rec) (hr : r ∈ new_records cons csB ctB) : r.status = "New" := by
  unfold new_records at hr
  obtain ⟨y, -, he⟩ := List.mem_map.mp hr
  rw [← he]

/-- Witness for C4 amended at a concrete input. -/
theorem c4_witness :
    ({ crow "Y" "In Progress" with status := "New" } : Rec).status = "New" :=
  c4_new_records_status_amended [crow "Y" "In Progress"] ["Y"] []
    { crow "Y" "In Progress" with status := "New" } (by decide)

/-- C4 counterexample: a consolidated row with key `Y`, absent from the
registry, carries the non-empty channel status `In Progress`, yet the merged
output has `New` as the Status of its only record for `Y` — the channel-provided status is
not used. -/
theorem c4_counterexample :
    (step3_merge [crow "Y" "In Progress"] [] [] [] [] mnone).map (·.status) = ["New"] ∧
      (crow "Y" "In Progress").status = "In Progress" ∧
      ("In Progress" : String) ≠ "" ∧ ("New" : String) ≠ "In Progress" := by
  refine ⟨by decide, rfl, by decide, by decide⟩

/-- C6 counterexample: the registry record with the empty Key and Status `new`
has the transition table applied to it (becoming `Untouched`) because a
consolidated extract row also carries the empty barcode. -/
theorem c6_counterexample :
    (step2_update_existing [""] [crow "" "new"]).map (·.status) = ["Untouched"] ∧
      ("Untouched" : String) ≠ "new" := by
  refine ⟨by decide, by decide⟩

/-- C6 amended: an empty Key is matched by the same set-membership tests as
any other value. (a) When some extract row has an empty barcode, an empty-Key
registry record undergoes the status transition (here: `new` to `Untouched`).
(b) A consolidated extract row with an empty barcode is appended as a new
record exactly when no registry record has an empty barcode. (c) When no
extract row has an empty barcode, an empty-Key registry record with a
non-`completed` status is marked `Needs Review` by the stale-record pass. -/
theorem c6_empty_key_amended :
    (∀ (csB : List String) (st : String), "" ∈ csB → pyLower (pyStrip st) = "new" →
        transform_status_if_barcode_exists csB "" st = "Untouched") ∧
      (∀ (cons : List Rec) (csB ctB : List String) (r : Rec),
        r ∈ cons → r.barcode = "" → "" ∈ csB →
        (({ r with status := "New" } ∈ new_records cons csB ctB) ↔ "" ∉ ctB)) ∧
      (∀ (ctB csB : List String) (r : Rec),
        r.barcode = "" → "" ∈ ctB → "" ∉ csB → pyLower (pyStrip r.status) ≠ "completed" →
        (needs_review_rec ctB csB r).status = "Needs Review") := by
  refine ⟨?_, ?_, ?_⟩
  · intro csB st h1 h2
    unfold transform_status_if_barcode_exists
    rw [if_pos h1]
    show (if pyLower (pyStrip st) = "new" then "Untouched"
        else if pyLower (pyStrip st) = "completed" then "Reopen"
        else if pyLower (pyStrip st) = "n/a" then "New"
        else if pyLower (pyStrip st) = "" ∨ pyLower (pyStrip st) = "na" ∨
            pyLower (pyStrip st) = "none" then st
        else st) = _
    rw [if_pos h2]
  · intro cons csB ctB r hr hb hc
    constructor
    · intro hmem
      unfold new_records at hmem
      obtain ⟨y, hy, he⟩ := List.mem_map.mp hmem
      have hy2 := of_decide_eq_true (List.mem_filter.mp hy).2
      have hybar : y.barcode = "" := by
        have hbar : ({ y with status := "New" } : Rec).barcode =
            ({ r with status := "New" } : Rec).barcode := by rw [he]
        simpa [hb] using hbar
      rw [hybar] at hy2
      exact hy2.2
    · intro hnin
      unfold new_records
      apply List.mem_map.mpr
      refine ⟨r, List.mem_filter.mpr ⟨hr, ?_⟩, rfl⟩
      exact decide_eq_true (by rw [hb]; exact ⟨hc, hnin⟩)
  · intro ctB csB r hb h1 h2 h3
    unfold needs_review_rec
    rw [if_pos ⟨by rw [hb]; exact h1, by rw [hb]; exact h2, h3⟩]

/-- Witness for C6 amended at concrete inputs. -/
theorem c6_witness :
    transform_status_if_barcode_exists [""] "" "new" = "Untouched" ∧
      (({ crow "" "x" with status := "New" } ∈ new_records [crow "" "x"] [""] []) ↔
        "" ∉ ([] : List String)) ∧
      (needs_review_rec [""] [] (crow "" "Open")).status = "Needs Review" :=
  ⟨c6_empty_key_amended.1 [""] "new" (by decide) (by decide),
    c6_empty_key_amended.2.1 [crow "" "x"] [""] [] (crow "" "x") (by decide) rfl (by decide),
    c6_empty_key_amended.2.2 [""] [] (crow "" "Open") rfl (by decide) (by decide) (by decide)⟩

/-- C9 amended: a PM7 record with blank Company code receives the first 4
characters of its stripped Barcode when that has at least 4 characters, and
the empty string — not the whole short Key — otherwise. -/
theorem c9_backfill_amended (r : Rec)
    (hch : r.channel = "PM7")
    (hcc : pyStrip (replaceNan (astypeStr r.companyCode)) = "") :
    (pm7_backfill_rec r).companyCode =
      RVal.s (if 4 ≤ pyLen (pyStrip r.barcode) then pyTake (pyStrip r.barcode) 4 else "") := by
  unfold pm7_backfill_rec
  rw [if_pos ⟨hch, hcc⟩]
  rfl

/-- Witness for C9 amended at a concrete input. -/
theorem c9_witness :
    (pm7_backfill_rec
        { barcode := "DE011234", channel := "PM7", companyCode := RVal.s "",
          region := RVal.na, status := "x" }).companyCode =
      RVal.s (if 4 ≤ pyLen (pyStrip "DE011234") then pyTake (pyStrip "DE011234") 4 else "") :=
  c9_backfill_amended
    { barcode := "DE011234", channel := "PM7", companyCode := RVal.s "",
      region := RVal.na, status := "x" } rfl (by decide)

/-- C9 counterexample: a PM7 record with blank Company code and the 2-character
Key `AB` ends with an empty Company code, although the first 4 characters of
`AB` (Python slicing semantics) are `AB` itself. -/
theorem c9_counterexample :
    (pm7_backfill_rec
        { barcode := "AB", channel := "PM7", companyCode := RVal.s "",
          region := RVal.na, status := "x" }).companyCode = RVal.s "" ∧
      pyTake "AB" 4 = "AB" ∧ ("AB" : String) ≠ "" := by
  refine ⟨by decide, by decide, by decide⟩

/-- C7 amended: the region fill leaves a non-blank Region unchanged except
when it is the literal string `nan`, which the trailing `replace` scrub
erases. -/
theorem c7_region_preserved_amended (m : String → Option String) (r : Rec) (v : String)
    (hv : r.region = RVal.s v) (h0 : v ≠ "") (hn : v ≠ "nan") :
    (region_fill_rec m r).region = RVal.s v := by
  unfold region_fill_rec
  show RVal.s (region_fill_val (m (ccLookupKey r.companyCode)) r.region) = RVal.s v
  rw [hv]
  show RVal.s (if v = "" then
      (match m (ccLookupKey r.companyCode) with
        | some w => replaceNan w
        | none => "<NA>")
      else replaceNan v) = RVal.s v
  rw [if_neg h0]
  show RVal.s (if v = "nan" then "" else v) = RVal.s v
  rw [if_neg hn]

/-- Witness for C7 amended at a concrete input. -/
theorem c7_witness :
    (region_fill_rec mnone
        { barcode := "k", channel := "Workon", companyCode := RVal.s "DE01",
          region := RVal.s "APAC", status := "Open" }).region = RVal.s "APAC" :=
  c7_region_preserved_amended mnone
    { barcode := "k", channel := "Workon", companyCode := RVal.s "DE01",
      region := RVal.s "APAC", status := "Open" } "APAC" rfl (by decide) (by decide)

/-- A record whose Region is the literal string `nan`, used to exhibit the
scrub performed by `replace` after the fill. -/
def nanRegionRec : Rec :=
  { barcode := "k", channel := "Workon", companyCode := RVal.s "DE01",
    region := RVal.s "nan", status := "Open" }

/-- C7 counterexample: a record whose Region is the non-blank literal string
`nan` (as arises from `str(...)` coercion of a missing Workon country) leaves
the region fill with an empty Region, not byte-identical to its input. -/
theorem c7_counterexample :
    (region_fill_rec mnone nanRegionRec).region = RVal.s "" ∧
      nanRegionRec.region = RVal.s "nan" ∧ RVal.s "nan" ≠ RVal.s "" := by
  refine ⟨by decide, rfl, by decide⟩

theorem replaceNan_idem (v : String) : replaceNan (replaceNan v) = replaceNan v := by
  by_cases h : v = "nan"
  · rw [h]
    decide
  · unfold replaceNan
    rw [if_neg h, if_neg h]

theorem replaceNan_ne_nan (v : String) : replaceNan v ≠ "nan" := by
  unfold replaceNan
  by_cases h : v = "nan"
  · rw [if_pos h]
    decide
  · rw [if_neg h]
    exact h

theorem region_fill_val_s (lk : Option String) (v : String) (hv : v ≠ "") :
    region_fill_val lk (RVal.s v) = replaceNan v := by
  show (if v = "" then _ else replaceNan v) = replaceNan v
  rw [if_neg hv]

theorem region_fill_val_s_empty_some (w : String) :
    region_fill_val (some w) (RVal.s "") = replaceNan w := rfl

theorem region_fill_val_s_empty_none :
    region_fill_val none (RVal.s "") = "<NA>" := rfl

theorem region_fill_val_na_some (w : String) :
    region_fill_val (some w) RVal.na = replaceNan w := rfl

theorem region_fill_val_na_none : region_fill_val none RVal.na = "" := rfl

theorem region_fill_val_pynone_some (w : String) :
    region_fill_val (some w) RVal.pynone = replaceNan w := rfl

theorem region_fill_val_pynone_none : region_fill_val none RVal.pynone = "None" := rfl

theorem region_fill_val_ne_nan (lk : Option String) (rv : RVal) :
    region_fill_val lk rv ≠ "nan" := by
  cases rv with
  | na =>
    cases lk with
    | none =>
      rw [region_fill_val_na_none]
      decide
    | some w =>
      rw [region_fill_val_na_some]
      exact replaceNan_ne_nan w
  | pynone =>
    cases lk with
    | none =>
      rw [region_fill_val_pynone_none]
      decide
    | some w =>
      rw [region_fill_val_pynone_some]
      exact replaceNan_ne_nan w
  | s v =>
    by_cases hv : v = ""
    · subst hv
      cases lk with
      | none =>
        rw [region_fill_val_s_empty_none]
        decide
      | some w =>
        rw [region_fill_val_s_empty_some]
        exact replaceNan_ne_nan w
    · rw [region_fill_val_s lk v hv]
      exact replaceNan_ne_nan v

theorem region_fill_val_idem (lk : Option String) (rv : RVal)
    (h1 : rv ≠ RVal.s "nan") (h2 : rv = RVal.na → lk.isSome = true) :
    region_fill_val lk (RVal.s (region_fill_val lk rv)) = region_fill_val lk rv := by
  by_cases hout : region_fill_val lk rv = ""
  · rw [hout]
    cases rv with
    | na =>
      cases lk with
      | none => exact absurd (h2 rfl) (by decide)
      | some w =>
        rw [region_fill_val_na_some] at hout
        rw [region_fill_val_s_empty_some]
        exact hout
    | pynone =>
      cases lk with
      | none =>
        rw [region_fill_val_pynone_none] at hout
        exact absurd hout (by decide)
      | some w =>
        rw [region_fill_val_pynone_some] at hout
        rw [region_fill_val_s_empty_some]
        exact hout
    | s v =>
      by_cases hv : v = ""
      · subst hv
        exact hout
      · exfalso
        have hrz : replaceNan v = "" := by
          rw [← region_fill_val_s lk v hv]
          exact hout
        have hvn : v = "nan" := by
          by_contra hvn
          unfold replaceNan at hrz
          rw [if_neg hvn] at hrz
          exact hv hrz
        exact h1 (by rw [hvn])
  · have h2nan := region_fill_val_ne_nan lk rv
    rw [region_fill_val_s lk _ hout]
    unfold replaceNan
    rw [if_neg h2nan]

theorem region_fill_rec_idem (m : String → Option String) (r : Rec)
    (h1 : r.region ≠ RVal.s "nan")
    (h2 : r.region = RVal.na → (m (ccLookupKey r.companyCode)).isSome = true) :
    region_fill_rec m (region_fill_rec m r) = region_fill_rec m r := by
  unfold region_fill_rec
  show ({ r with region := RVal.s (region_fill_val
        (m (ccLookupKey r.companyCode))
        (RVal.s (region_fill_val (m (ccLookupKey r.companyCode)) r.region))) } : Rec) =
    { r with region := RVal.s (region_fill_val (m (ccLookupKey r.companyCode)) r.region) }
  rw [region_fill_val_idem (m (ccLookupKey r.companyCode)) r.region h1 h2]

theorem pm7_backfill_rec_idem (r : Rec) :
    pm7_backfill_rec (pm7_backfill_rec r) = pm7_backfill_rec r := by
  unfold pm7_backfill_rec
  by_cases h : (r.channel = "PM7" ∧ pyStrip (replaceNan (astypeStr r.companyCode)) = "")
  · rw [if_pos h]
    split
    · rfl
    · rfl
  · rw [if_neg h, if_neg h]

/-- C8 amended: the PM7 company-code backfill is idempotent on every record
set.  The region fill is not: a second pass re-fills any record whose first
pass produced an empty Region while its blank-cell rendering is non-empty.
It is idempotent on record sets in which no Region is the literal string
`nan` and every record with a missing (NaN) Region has a mapped company-code
key; outside that condition it fails — a Region equal to the string `nan` is
scrubbed to blank on the first pass and filled from the mapping on the
second, and a missing (NaN) Region with an unmapped company code renders as
the empty string on the first pass but as the angle-bracket NA text on the
second (see the counterexample for both shapes). -/
theorem c8_enrichment_idempotence_amended (m : String → Option String) (rows : List Rec)
    (h : ∀ r ∈ rows, r.region ≠ RVal.s "nan" ∧
      (r.region = RVal.na → (m (ccLookupKey r.companyCode)).isSome = true)) :
    pm7_backfill (pm7_backfill rows) = pm7_backfill rows ∧
      region_fill m (region_fill m rows) = region_fill m rows := by
  constructor
  · unfold pm7_backfill
    rw [List.map_map]
    exact map_congr_mem fun a _ => pm7_backfill_rec_idem a
  · unfold region_fill
    rw [List.map_map]
    exact map_congr_mem fun a ha => region_fill_rec_idem m a (h a ha).1 (h a ha).2

/-- Witness for C8 amended at a concrete input. -/
theorem c8_witness :
    pm7_backfill (pm7_backfill [crow "P1" "open"]) = pm7_backfill [crow "P1" "open"] ∧
      region_fill mnone (region_fill mnone [crow "P1" "open"]) =
        region_fill mnone [crow "P1" "open"] :=
  c8_enrichment_idempotence_amended mnone [crow "P1" "open"] (by decide)

/-- The region-mapping lookup sending company-code key `DE01` to `EMEA`,
used by the C8 counterexample. -/
def de01Map : String → Option String := fun k => if k = "DE01" then some "EMEA" else none

/-- A record whose Region is a missing (float NaN) cell and whose company
code has no mapping, used by the C8 counterexample. -/
def naRegionRec : Rec :=
  { barcode := "k2", channel := "Workon", companyCode := RVal.s "ZZ99",
    region := RVal.na, status := "Open" }

/-- C8 counterexample, two shapes.  First: on a record whose Region is the
literal string `nan` and whose Company code maps to `EMEA`, one application
of the region fill yields a blank Region while a second fills it with `EMEA`.
Second: on a record whose Region is missing (NaN) and whose Company code has
no mapping, one application yields a blank Region while a second renders the
unfilled pd.NA as the angle-bracket NA text.  In both cases the step is not
idempotent. -/
theorem c8_counterexample :
    ((region_fill de01Map [nanRegionRec]).map (·.region) = [RVal.s ""] ∧
      (region_fill de01Map (region_fill de01Map [nanRegionRec])).map (·.region) =
        [RVal.s "EMEA"] ∧
      region_fill de01Map (region_fill de01Map [nanRegionRec]) ≠
        region_fill de01Map [nanRegionRec]) ∧
    ((region_fill mnone [naRegionRec]).map (·.region) = [RVal.s ""] ∧
      (region_fill mnone (region_fill mnone [naRegionRec])).map (·.region) =
        [RVal.s "<NA>"] ∧
      region_fill mnone (region_fill mnone [naRegionRec]) ≠
        region_fill mnone [naRegionRec]) := by
  refine ⟨⟨by decide, by decide, by decide⟩, ⟨by decide, by decide, by decide⟩⟩

theorem map_status_pm7_backfill (l : List Rec) :
    (pm7_backfill l).map (·.status) = l.map (·.status) := by
  unfold pm7_backfill
  rw [List.map_map]
  exact map_congr_mem fun a _ => pm7_backfill_rec_status a

theorem map_status_region_fill (m : String → Option String) (l : List Rec) :
    (region_fill m l).map (·.status) = l.map (·.status) := by
  unfold region_fill
  rw [List.map_map]
  exact map_congr_mem fun a _ => region_fill_rec_status m a

theorem step2_barcodes (csB : List String) (central : List Rec) :
    (step2_update_existing csB central).map (·.barcode) = central.map (·.barcode) := by
  unfold step2_update_existing
  rw [List.map_map]
  exact map_congr_mem fun a _ => rfl

theorem step2_length (csB : List String) (central : List Rec) :
    (step2_update_existing csB central).length = central.length := by
  simp [step2_update_existing]

theorem step3_status_head_part (cons central : List Rec) (w : List WorkonRow)
    (g : List RgbaRow) (s : List SmdRow) (m : String → Option String) :
    ((step3_merge cons central w g s m).map (·.status)).take central.length =
      central.map fun r =>
        (needs_review_rec (central.map (·.barcode)) (cons.map (·.barcode)) r).status := by
  simp only [step3_merge, needs_review_pass]
  rw [map_status_region_fill, map_status_pm7_backfill]
  simp only [List.map_append, List.map_map, List.append_assoc]
  exact take_map_append _ _ central

theorem nr_after_step2_status (cb csb : List String) (r : Rec) (hbar : r.barcode ∈ cb) :
    (needs_review_rec cb csb
        { r with status := transform_status_if_barcode_exists csb r.barcode r.status }).status =
      if r.barcode ∈ csb then transform_status_if_barcode_exists csb r.barcode r.status
      else if pyLower (pyStrip r.status) = "completed" then r.status
      else "Needs Review" := by
  by_cases hc : r.barcode ∈ csb
  · rw [if_pos hc]
    unfold needs_review_rec
    rw [if_neg fun hh => hh.2.1 hc]
  · rw [if_neg hc]
    have ht : transform_status_if_barcode_exists csb r.barcode r.status = r.status := by
      unfold transform_status_if_barcode_exists
      rw [if_neg hc]
    rw [ht]
    by_cases hcomp : pyLower (pyStrip r.status) = "completed"
    · rw [if_pos hcomp]
      unfold needs_review_rec
      rw [if_neg fun hh => hh.2.2 hcomp]
    · rw [if_neg hcomp]
      unfold needs_review_rec
      rw [if_pos ⟨hbar, hc, hcomp⟩]

/-- C2 amended: after the full reconciliation, the status of the registry
record at each position is computed by the state machine with the consolidated
PISA/ESM/PM7 barcode set playing the role of both the trigger set and the
presence set: a barcode in the consolidated set goes through the transition
table; a barcode absent from it whose status is not `completed`
(case-insensitive, trimmed) becomes `Needs Review` — even when the barcode
appears in a non-trigger extract such as Workon or RGBA, which the source
never consults for this test; otherwise the status is unchanged. -/
theorem c2_needs_review_amended (cons central : List Rec) (w : List WorkonRow)
    (g : List RgbaRow) (s : List SmdRow) (m : String → Option String) :
    ((reconcile cons central w g s m).map (·.status)).take central.length =
      central.map fun r =>
        if r.barcode ∈ cons.map (·.barcode) then
          transform_status_if_barcode_exists (cons.map (·.barcode)) r.barcode r.status
        else if pyLower (pyStrip r.status) = "completed" then r.status
        else "Needs Review" := by
  unfold reconcile
  rw [show central.length = (step2_update_existing (cons.map (·.barcode)) central).length from
    (step2_length _ _).symm]
  rw [step3_status_head_part, step2_barcodes]
  unfold step2_update_existing
  rw [List.map_map]
  apply map_congr_mem
  intro r hr
  exact nr_after_step2_status _ _ r (List.mem_map_of_mem _ hr)

/-- Registry and Workon inputs for the C2 counterexample. -/
def c2central : List Rec :=
  [{ barcode := "W1", channel := "PISA", companyCode := RVal.s "", region := RVal.s "",
     status := "Untouched" }]

/-- Workon extract containing the registry key `W1`. -/
def c2workon : List WorkonRow :=
  [{ key := "W1", status := "Open", country := "DE", companyCode := "0001" }]

/-- C2 counterexample: the registry record with key `W1` (status `Untouched`)
appears in the Workon extract of the run but in no trigger channel, yet the
reconciliation sets its status to `Needs Review` — the claim says a key
appearing in the extract of any channel leaves the status unchanged. -/
theorem c2_counterexample :
    ((reconcile [] c2central c2workon [] [] mnone).map (·.status)).head? =
        some "Needs Review" ∧
      c2workon.map (·.key) = ["W1"] ∧ c2central.map (·.barcode) = ["W1"] ∧
      c2central.map (·.status) = ["Untouched"] ∧
      ("Needs Review" : String) ≠ "Untouched" := by
  refine ⟨by decide, rfl, rfl, rfl, by decide⟩

theorem cnt_pm7_backfill (k : String) (l : List Rec) : cnt k (pm7_backfill l) = cnt k l :=
  cnt_map_of_barcode k _ pm7_backfill_rec_barcode l

theorem cnt_region_fill (k : String) (m : String → Option String) (l : List Rec) :
    cnt k (region_fill m l) = cnt k l :=
  cnt_map_of_barcode k _ (region_fill_rec_barcode m) l

theorem cnt_needs_review (k : String) (cb csb : List String) (l : List Rec) :
    cnt k (needs_review_pass cb csb l) = cnt k l :=
  cnt_map_of_barcode k _ (needs_review_rec_barcode cb csb) l

/-- C3 amended: for a barcode `k` present in the consolidated extract and
absent from the registry, the merged output contains one record per extract
row carrying `k` — every consolidated PISA/ESM/PM7 row with barcode `k`, plus
every Workon and RGBA row with key `k`, plus every SMD row when `k` is the
empty barcode — rather than exactly one record. -/
theorem c3_insertion_count_amended (cons central : List Rec) (w : List WorkonRow)
    (g : List RgbaRow) (s : List SmdRow) (m : String → Option String) (k : String)
    (hk : k ∈ cons.map (·.barcode)) (hnk : k ∉ central.map (·.barcode)) :
    cnt k (step3_merge cons central w g s m) =
      cnt k cons + (w.filter fun x => decide (x.key = k)).length +
        (g.filter fun x => decide (x.key = k)).length +
        (if k = "" then s.length else 0) := by
  simp only [step3_merge, rgba_filter]
  rw [cnt_region_fill, cnt_pm7_backfill, cnt_append, cnt_append, cnt_append,
    cnt_needs_review, cnt_append, cnt_eq_zero_of_not_mem k central hnk]
  unfold new_records
  rw [cnt_map_of_barcode k (fun r => { r with status := "New" }) fun r => rfl]
  rw [cnt_filter_of_keep k _ (fun r hr => decide_eq_true (by rw [hr]; exact ⟨hk, hnk⟩)) cons]
  rw [cnt_map_workon, cnt_map_rgba, cnt_map_smd]
  omega

/-- Witness for C3 amended at a concrete input. -/
theorem c3_witness :
    cnt "X" (step3_merge [crow "X" "open"] [] [] [] [] mnone) =
      cnt "X" [crow "X" "open"] +
        (([] : List WorkonRow).filter fun x => decide (x.key = "X")).length +
        (([] : List RgbaRow).filter fun x => decide (x.key = "X")).length +
        (if ("X" : String) = "" then ([] : List SmdRow).length else 0) :=
  c3_insertion_count_amended [crow "X" "open"] [] [] [] [] mnone "X" (by decide) (by decide)

/-- C3 counterexample: the barcode `X` occurs on two consolidated extract rows
(as happens when two channels extract the same case) and is absent from the
registry; the merged output contains two records with Key `X`, not exactly
one. -/
theorem c3_counterexample :
    cnt "X" (step3_merge [crow "X" "open", crow "X" "pending"] [] [] [] [] mnone) = 2 ∧
      "X" ∈ ([crow "X" "open", crow "X" "pending"].map (·.barcode)) ∧
      "X" ∉ (([] : List Rec).map (·.barcode)) ∧ (2 : Nat) ≠ 1 := by
  refine ⟨by decide, by decide, by decide, by decide⟩

end BSeg
